import Mathlib

/-!
Verification of the SOCKS5 proxy in `socks.py` (class `SocksProxy`).

The per-connection handler `SocksProxy.handle` is embedded shallowly as a pure
function over the complete byte string the client sends on its stream, plus a
parameter describing the outcome of the (external) outbound TCP connect.  Each
`await conn.recv(n)` on the buffered client byte string returns up to `n`
bytes (modelled by `List.take`); `struct.unpack` on too few bytes, a failed
`assert`, `ord` of an empty byte string, a `.decode('utf-8')` error, and the
other unhandled Python exceptions are modelled as a fault ending the session.
Bytes are `Nat`s; byte strings are `List Nat`.

Sends to the client (`conn.sendall`) are recorded in order and assumed to
succeed; the external `curio.tcp_server` wrapper closes the client socket
whenever the handler returns or raises, so "session ends" always implies the
client connection is eventually closed.  The model records separately which
closes the handler itself performs (`await conn.close()`).
-/

abbrev Bytes := List Nat

/-- Big-endian 2-byte encoding, as produced by `struct.pack("!H", n)`. -/
def be16 (n : Nat) : Bytes := [n / 256 % 256, n % 256]

/-- Big-endian 4-byte encoding, as produced by `struct.pack("!I", n)`. -/
def be32 (n : Nat) : Bytes :=
  [n / 16777216 % 256, n / 65536 % 256, n / 256 % 256, n % 256]

/-- `SocksProxy.get_available_methods`: reads `n` single bytes with
`ord(await conn.recv(1))`; `ord` of an empty read raises, so the call faults
(`none`) exactly when fewer than `n` bytes remain. -/
def get_available_methods (n : Nat) (buf : Bytes) : Option (Bytes × Bytes) :=
  if buf.length < n then none else some (buf.take n, buf.drop n)

/-- Greeting phase of `SocksProxy.handle` (lines 30–39 of `socks.py`):
`recv(2)`, `struct.unpack("!BB")` (faults on a short read), `assert version ==
5`, `assert nmethods > 0`, then `get_available_methods`.  Returns the method
list and the unread remainder of the client bytes, or `none` on an unhandled
exception. -/
def parseGreeting (input : Bytes) : Option (Bytes × Bytes) :=
  match input with
  | v :: n :: rest =>
    if v = 5 then
      if n = 0 then none
      else
        match get_available_methods n rest with
        | none => none
        | some (ms, rest2) => some (ms, rest2)
    else none
  | _ => none

/-- Is `c` a UTF-8 continuation byte (`0x80`–`0xBF`)? -/
def isCont (c : Nat) : Bool := 128 ≤ c && c ≤ 191

/-- Strict UTF-8 decoding of a byte string to its code points, as performed by
Python's `bytes.decode('utf-8')`: rejects continuation-byte starts, overlong
forms, surrogates and code points above `U+10FFFF`.  `none` models the
`UnicodeDecodeError` that `verify_credentials` leaves unhandled. -/
def utf8Decode? : Bytes → Option (List Nat)
  | [] => some []
  | b :: rest =>
    if b ≤ 127 then (utf8Decode? rest).map (b :: ·)
    else if b ≤ 193 then none
    else if b ≤ 223 then
      match rest with
      | c1 :: r2 =>
        if isCont c1 then (utf8Decode? r2).map (((b - 192) * 64 + (c1 - 128)) :: ·)
        else none
      | [] => none
    else if b ≤ 239 then
      match rest with
      | c1 :: c2 :: r3 =>
        if (if b = 224 then 160 ≤ c1 && c1 ≤ 191
            else if b = 237 then 128 ≤ c1 && c1 ≤ 159
            else isCont c1) && isCont c2 then
          (utf8Decode? r3).map
            (((b - 224) * 4096 + (c1 - 128) * 64 + (c2 - 128)) :: ·)
        else none
      | _ => none
    else if b ≤ 244 then
      match rest with
      | c1 :: c2 :: c3 :: r4 =>
        if (if b = 240 then 144 ≤ c1 && c1 ≤ 191
            else if b = 244 then 128 ≤ c1 && c1 ≤ 143
            else isCont c1) && isCont c2 && isCont c3 then
          (utf8Decode? r4).map
            (((b - 240) * 262144 + (c1 - 128) * 4096 + (c2 - 128) * 64 + (c3 - 128)) :: ·)
        else none
      | _ => none
    else none

/-- Result of `SocksProxy.verify_credentials`: the auth reply it sent, whether
it returned `True`, whether it executed `await conn.close()`, and the unread
remainder of the client bytes. -/
structure AuthOutcome where
  replied : Bytes
  success : Bool
  closedConn : Bool
  rest : Bytes
  deriving DecidableEq, Repr

/-- Final step of `verify_credentials`: compare the decoded username and
password against the configured pair with `==`; on match send
`struct.pack("!BB", 1, 0)` and return `True`, else send
`struct.pack("!BB", 1, 0xFF)`, `await conn.close()`, and return `False`. -/
def authReplyFor (cfgU cfgP du dp : List Nat) (rest : Bytes) : AuthOutcome :=
  if du = cfgU ∧ dp = cfgP then ⟨[1, 0], true, false, rest⟩
  else ⟨[1, 255], false, true, rest⟩

/-- `SocksProxy.verify_credentials` (lines 105–125 of `socks.py`): read the
sub-negotiation version byte (`assert version == 1`), the length-prefixed
username and password (`recv` returns up to the requested count), and decode
both as UTF-8.  All reads and both decodes happen before any reply is sent, so
an unhandled exception (`none`) means no auth reply was sent. -/
def verify_credentials (cfgU cfgP : List Nat) (buf : Bytes) : Option AuthOutcome :=
  match buf with
  | [] => none
  | v :: r1 =>
    if v = 1 then
      match r1 with
      | [] => none
      | ulen :: r2 =>
        match utf8Decode? (r2.take ulen) with
        | none => none
        | some du =>
          match r2.drop ulen with
          | [] => none
          | plen :: r4 =>
            match utf8Decode? (r4.take plen) with
            | none => none
            | some dp => some (authReplyFor cfgU cfgP du dp (r4.drop plen))
    else none

/-- Decoded connect request, or the unhandled exception that aborted its
parsing. -/
inductive ConnReq where
  /-- An unhandled exception while reading the request: short `recv` for
  `struct.unpack`, `assert version == 5` failing, the `TypeError` raised on
  the domain-name path, or `socket.inet_ntoa` of fewer than 4 bytes. -/
  | fault : ConnReq
  /-- A parsed request: command byte, address-type byte, the address bytes
  (`none` when the address-type branch assigned no `address` variable at
  all), the port, and the unread remainder. -/
  | req : Nat → Nat → Option Bytes → Nat → Bytes → ConnReq
  deriving DecidableEq, Repr

/-- Connect-request phase of `SocksProxy.handle` (lines 53–63 of `socks.py`):
`struct.unpack("!BBBB", recv(4))`, `assert version == 5`, then the address by
type.  For address type 1 it reads 4 bytes (`socket.inet_ntoa` raises on
fewer).  For address type 3 the source evaluates
`ord(await conn.recv(1)[0])`, which subscripts the *coroutine object*
returned by `conn.recv(1)` before awaiting it and therefore raises
`TypeError` unconditionally: the model faults.  Any other address type has no
branch, so no `address` is assigned and parsing continues with the port. -/
def parseConnectRequest (buf : Bytes) : ConnReq :=
  match buf with
  | b0 :: cmd :: _rsv :: atyp :: rest =>
    if b0 = 5 then
      if atyp = 1 then
        if rest.length < 4 then ConnReq.fault
        else
          match rest.drop 4 with
          | p0 :: p1 :: r => ConnReq.req cmd atyp (some (rest.take 4)) (256 * p0 + p1) r
          | _ => ConnReq.fault
      else if atyp = 3 then ConnReq.fault
      else
        match rest with
        | p0 :: p1 :: r => ConnReq.req cmd atyp none (256 * p0 + p1) r
        | _ => ConnReq.fault
    else ConnReq.fault
  | _ => ConnReq.fault

/-- `SocksProxy.generate_failed_reply`:
`struct.pack("!BBBBIH", 5, error_number, 0, address_type, 0, 0)`. -/
def generate_failed_reply (address_type error_number : Nat) : Bytes :=
  [5, error_number, 0, address_type] ++ be32 0 ++ be16 0

/-- How a modelled session ended. -/
inductive SessionEnd where
  /-- An unhandled exception during the handshake (failed `assert`,
  `struct.error`, `TypeError`, `UnicodeDecodeError`).  The handler raises;
  the `tcp_server` wrapper closes the client socket. -/
  | protocolFault : SessionEnd
  /-- Method 2 was not offered: the handler returns after the greeting having
  sent nothing (the bare `conn.close()` on line 44 is an un-awaited
  coroutine, so the handler itself closes nothing). -/
  | noAcceptableMethod : SessionEnd
  /-- `verify_credentials` returned `False`: failure reply sent, connection
  closed inside `verify_credentials`, handler returns. -/
  | authRejected : SessionEnd
  /-- The command byte was not 1 (CONNECT): the handler returns from the
  `else` branch (its `conn.close()` is again un-awaited). -/
  | cmdNotConnect : SessionEnd
  /-- A reply with nonzero status byte was sent, so the relay jobs were never
  spawned; `await job1.join()` on line 95 then raises `UnboundLocalError`
  (the joins sit outside the `if reply[1] == 0 and cmd == 1` guard) and the
  handler aborts before reaching its `await conn.close()`. -/
  | joinFault : SessionEnd
  /-- Full success: both relay directions spawned and joined, then
  `await conn.close()`. -/
  | relayedClosed : SessionEnd
  deriving DecidableEq, Repr

/-- Observable outcome of one modelled session. -/
structure SessionResult where
  /-- The byte strings passed to `conn.sendall`, in order. -/
  sent : List Bytes
  /-- Whether the two `forward_tcp` relay tasks were spawned. -/
  relayStarted : Bool
  /-- Whether the handler itself executed `await conn.close()`. -/
  connClosed : Bool
  /-- Whether the handler closed the outbound socket `remote` (the source
  never does). -/
  remoteClosed : Bool
  ending : SessionEnd
  deriving DecidableEq, Repr

/-- Prepend earlier `sendall`s to a later phase's result. -/
def withSends (pre : List Bytes) (r : SessionResult) : SessionResult :=
  ⟨pre ++ r.sent, r.relayStarted, r.connClosed, r.remoteClosed, r.ending⟩

/-- Reply-and-relay phase of `SocksProxy.handle` (lines 66–97 of `socks.py`),
starting at the parsed connect request.  `cr` is the outcome of the external
outbound connect: `some (ba, bp)` means it succeeded and
`remote.getsockname()` reported the 32-bit address `ba` and port `bp`; `none`
means `remote.connect` raised.  When the request's address-type branch
assigned no `address`, evaluating `(address, port)` raises `NameError`, which
the same `except Exception` catches, so both cases produce
`generate_failed_reply(address_type, 5)`. -/
def connectAndRelayPhase (cr : Option (Nat × Nat)) (buf : Bytes) : SessionResult :=
  match parseConnectRequest buf with
  | ConnReq.fault => ⟨[], false, false, false, SessionEnd.protocolFault⟩
  | ConnReq.req cmd atyp address _port _rest =>
    if cmd = 1 then
      let reply :=
        match address, cr with
        | some _, some (ba, bp) => [5, 0, 0, atyp] ++ be32 ba ++ be16 bp
        | _, _ => generate_failed_reply atyp 5
      if reply.getD 1 255 = 0 then
        ⟨[reply], true, true, false, SessionEnd.relayedClosed⟩
      else
        ⟨[reply], false, false, false, SessionEnd.joinFault⟩
    else ⟨[], false, false, false, SessionEnd.cmdNotConnect⟩

/-- Auth phase of `SocksProxy.handle` (lines 50–51): run
`verify_credentials`; on `True` continue into the connect phase, on `False`
return (the failure reply and close already happened inside
`verify_credentials`). -/
def authPhase (cfgU cfgP : List Nat) (cr : Option (Nat × Nat)) (buf : Bytes) :
    SessionResult :=
  match verify_credentials cfgU cfgP buf with
  | none => ⟨[], false, false, false, SessionEnd.protocolFault⟩
  | some o =>
    if o.success then withSends [o.replied] (connectAndRelayPhase cr o.rest)
    else ⟨[o.replied], false, o.closedConn, false, SessionEnd.authRejected⟩

/-- `SocksProxy.handle`, end to end: greeting, method selection
(`struct.pack("!BB", 5, 2)` sent only when method 2 is offered), auth,
connect request, reply and relay.  `cfgU`/`cfgP` are the code points of the
configured username and password; `input` is the complete byte string the
client sends; `cr` is the external outbound-connect outcome. -/
def handle (cfgU cfgP : List Nat) (cr : Option (Nat × Nat)) (input : Bytes) :
    SessionResult :=
  match parseGreeting input with
  | none => ⟨[], false, false, false, SessionEnd.protocolFault⟩
  | some (methods, rest) =>
    if 2 ∈ methods then withSends [[5, 2]] (authPhase cfgU cfgP cr rest)
    else ⟨[], false, false, false, SessionEnd.noAcceptableMethod⟩

/-- One `src.recv(4096)` event seen by a `forward_tcp` direction. -/
inductive RelayEvent where
  /-- `src.recv` raised. -/
  | recvRaised : RelayEvent
  /-- `src.recv` returned these bytes; the `Bool` says whether the following
  `dst.sendall` succeeded (the bare `except` catches either failure). -/
  | got : Bytes → Bool → RelayEvent
  deriving DecidableEq, Repr

/-- The bytes carried by a relay event (empty for a recv fault). -/
def eventChunk : RelayEvent → Bytes
  | RelayEvent.recvRaised => []
  | RelayEvent.got bs _ => bs

/-- `SocksProxy.forward_tcp` over the (finite) trace of its recv outcomes:
loop reading `src.recv(4096)`, `dst.sendall(data)`, break after an empty
read, and the bare `except` turns any read/write fault into a plain `break`.
The returned list is the successive `sendall` payloads (the final empty chunk
included — `sendall(b'')` writes zero bytes).  An exhausted trace ends the
model. -/
def forward_tcp : List RelayEvent → List Bytes
  | [] => []
  | RelayEvent.recvRaised :: _ => []
  | RelayEvent.got bs ok :: rest =>
    if ok then (if bs = [] then [bs] else bs :: forward_tcp rest)
    else []

/-! ## Helper lemmas -/

/-- `authReplyFor` either matched and produced the success outcome or
mismatched and produced the failure outcome. -/
lemma authReplyFor_cases (cfgU cfgP du dp : List Nat) (rest : Bytes) :
    (du = cfgU ∧ dp = cfgP ∧
       authReplyFor cfgU cfgP du dp rest = ⟨[1, 0], true, false, rest⟩) ∨
    (¬(du = cfgU ∧ dp = cfgP) ∧
       authReplyFor cfgU cfgP du dp rest = ⟨[1, 255], false, true, rest⟩) := by
  by_cases h : du = cfgU ∧ dp = cfgP
  · exact Or.inl ⟨h.1, h.2, by simp [authReplyFor, h]⟩
  · exact Or.inr ⟨h, by simp [authReplyFor, h]⟩

/-- Every defined result of `verify_credentials` comes from `authReplyFor`. -/
lemma verify_credentials_inv {cfgU cfgP : List Nat} {buf : Bytes} {o : AuthOutcome}
    (h : verify_credentials cfgU cfgP buf = some o) :
    ∃ du dp rest, o = authReplyFor cfgU cfgP du dp rest := by
  cases buf with
  | nil => exact Option.noConfusion h
  | cons v r1 =>
    simp only [verify_credentials] at h
    split at h
    · cases r1 with
      | nil => exact Option.noConfusion h
      | cons ulen r2 =>
        dsimp only at h
        cases hdu : utf8Decode? (r2.take ulen) with
        | none => rw [hdu] at h; exact Option.noConfusion h
        | some du =>
          rw [hdu] at h
          cases hdrop : r2.drop ulen with
          | nil => rw [hdrop] at h; exact Option.noConfusion h
          | cons plen r4 =>
            rw [hdrop] at h
            dsimp only at h
            cases hdp : utf8Decode? (r4.take plen) with
            | none => rw [hdp] at h; exact Option.noConfusion h
            | some dp =>
              rw [hdp] at h
              exact ⟨du, dp, r4.drop plen, (Option.some.inj h).symm⟩
    · exact Option.noConfusion h

/-- The reply and close behaviour of `verify_credentials`, by result. -/
lemma verify_credentials_replied {cfgU cfgP : List Nat} {buf : Bytes} {o : AuthOutcome}
    (h : verify_credentials cfgU cfgP buf = some o) :
    (o.success = true → o.replied = [1, 0] ∧ o.closedConn = false) ∧
    (o.success = false → o.replied = [1, 255] ∧ o.closedConn = true) := by
  obtain ⟨du, dp, rest, ho⟩ := verify_credentials_inv h
  subst ho
  rcases authReplyFor_cases cfgU cfgP du dp rest with ⟨_, _, he⟩ | ⟨_, he⟩ <;>
    rw [he] <;> simp

/-- Exhaustive description of `handle`: either the relay never starts (and
the session does not end in `relayedClosed`, and the outbound socket is not
closed), or every handshake step succeeded and the result is the full
success shape. -/
lemma handle_cases (cfgU cfgP : List Nat) (cr : Option (Nat × Nat)) (input : Bytes) :
    ((handle cfgU cfgP cr input).relayStarted = false ∧
     (handle cfgU cfgP cr input).ending ≠ SessionEnd.relayedClosed ∧
     (handle cfgU cfgP cr input).remoteClosed = false) ∨
    (∃ ms r1 o atyp ab port r2 ba bp,
      parseGreeting input = some (ms, r1) ∧ 2 ∈ ms ∧
      verify_credentials cfgU cfgP r1 = some o ∧ o.success = true ∧
      parseConnectRequest o.rest = ConnReq.req 1 atyp (some ab) port r2 ∧
      cr = some (ba, bp) ∧
      handle cfgU cfgP cr input =
        ⟨[[5, 2], [1, 0], [5, 0, 0, atyp] ++ be32 ba ++ be16 bp], true, true, false,
         SessionEnd.relayedClosed⟩) := by
  unfold handle
  cases hg : parseGreeting input with
  | none => exact Or.inl (by simp)
  | some pr =>
    obtain ⟨ms, r1⟩ := pr
    by_cases hm : 2 ∈ ms
    · simp only [hm, if_true]
      unfold authPhase
      cases hv : verify_credentials cfgU cfgP r1 with
      | none => exact Or.inl (by simp [withSends])
      | some o =>
        cases hs : o.success with
        | false => exact Or.inl (by simp [withSends, hs])
        | true =>
          have hrep : o.replied = [1, 0] :=
            ((verify_credentials_replied hv).1 hs).1
          simp only [hs, if_true]
          unfold connectAndRelayPhase
          cases hp : parseConnectRequest o.rest with
          | fault => exact Or.inl (by simp [withSends])
          | req cmd atyp addr port r2 =>
            by_cases hc : cmd = 1
            · subst hc
              cases addr with
              | none =>
                exact Or.inl (by simp [withSends, generate_failed_reply, be32, be16])
              | some ab =>
                cases hcr : cr with
                | none =>
                  exact Or.inl (by simp [withSends, generate_failed_reply, be32, be16])
                | some bb =>
                  obtain ⟨ba, bp⟩ := bb
                  refine Or.inr ⟨ms, r1, o, atyp, ab, port, r2, ba, bp, rfl, hm, hv, hs, hp,
                    rfl, ?_⟩
                  simp [withSends, hrep, be32, be16]
            · exact Or.inl (by simp [withSends, hc])
    · simp only [hm, if_false]
      exact Or.inl (by simp)

/-- A run of nonempty, successfully-sent chunks is forwarded verbatim and the
loop continues into the remaining events. -/
lemma forward_tcp_clean_append (pre : List Bytes) (evs : List RelayEvent)
    (hne : ∀ b ∈ pre, b ≠ []) :
    forward_tcp (pre.map (fun b => RelayEvent.got b true) ++ evs)
      = pre ++ forward_tcp evs := by
  induction pre with
  | nil => simp
  | cons b bs ih =>
    have hb : b ≠ [] := hne b (by simp)
    simp [forward_tcp, hb, ih (fun x hx => hne x (by simp [hx]))]

/-- Every chunk `forward_tcp` writes is a chunk some recv event carried. -/
lemma forward_tcp_mem {evs : List RelayEvent} {w : Bytes}
    (hw : w ∈ forward_tcp evs) : ∃ e ∈ evs, eventChunk e = w := by
  induction evs with
  | nil => simp [forward_tcp] at hw
  | cons e rest ih =>
    cases e with
    | recvRaised => simp [forward_tcp] at hw
    | got bs ok =>
      cases ok with
      | false => simp [forward_tcp] at hw
      | true =>
        by_cases hbs : bs = []
        · subst hbs
          simp [forward_tcp] at hw
          subst hw
          exact ⟨RelayEvent.got [] true, by simp, rfl⟩
        · simp [forward_tcp, hbs] at hw
          rcases hw with hw | hw
          · subst hw; exact ⟨RelayEvent.got w true, by simp, rfl⟩
          · obtain ⟨e, he, hc⟩ := ih hw
            exact ⟨e, by simp [he], hc⟩

/-! ## Claim theorems -/

/-- C6.  For every relay direction and every finite source stream:
the direction writes every nonempty chunk unchanged and in order to the
destination and terminates exactly at the first zero-byte read or read/write
fault, forwarding nothing beyond it (first three conjuncts, for the three
terminators: zero-byte read, recv fault, sendall fault); and every written
chunk is one that `src.recv(4096)` returned, so under the transport's
guarantee that each recv yields at most 4096 bytes, every write is at most
4096 bytes (last conjunct).  A fault merely ends the loop (`forward_tcp`
returns normally): it is not propagated. -/
theorem forward_tcp_relays_in_order (pre : List Bytes) (evs : List RelayEvent)
    (c : Bytes) (hne : ∀ b ∈ pre, b ≠ []) :
    (forward_tcp (pre.map (fun b => RelayEvent.got b true)
        ++ RelayEvent.got [] true :: evs)).flatten = pre.flatten ∧
    (forward_tcp (pre.map (fun b => RelayEvent.got b true)
        ++ RelayEvent.recvRaised :: evs)).flatten = pre.flatten ∧
    (forward_tcp (pre.map (fun b => RelayEvent.got b true)
        ++ RelayEvent.got c false :: evs)).flatten = pre.flatten ∧
    (∀ evs2 : List RelayEvent, (∀ e ∈ evs2, (eventChunk e).length ≤ 4096) →
       ∀ w ∈ forward_tcp evs2, w.length ≤ 4096) := by
  refine ⟨?_, ?_, ?_, ?_⟩
  · rw [forward_tcp_clean_append pre _ hne]; simp [forward_tcp]
  · rw [forward_tcp_clean_append pre _ hne]; simp [forward_tcp]
  · rw [forward_tcp_clean_append pre _ hne]; simp [forward_tcp]
  · intro evs2 hsz w hw
    obtain ⟨e, he, hc⟩ := forward_tcp_mem hw
    exact hc ▸ hsz e he

/-- Witness for C6 at a concrete two-chunk stream ended by a zero-byte read,
with trailing events past each terminator. -/
theorem forward_tcp_relays_in_order_witness :
    (∀ b ∈ ([[1, 2], [3]] : List Bytes), b ≠ []) ∧
    ((forward_tcp (([[1, 2], [3]] : List Bytes).map (fun b => RelayEvent.got b true)
        ++ RelayEvent.got [] true :: [RelayEvent.got [9] true])).flatten
      = ([[1, 2], [3]] : List Bytes).flatten ∧
     (forward_tcp (([[1, 2], [3]] : List Bytes).map (fun b => RelayEvent.got b true)
        ++ RelayEvent.recvRaised :: [RelayEvent.got [9] true])).flatten
      = ([[1, 2], [3]] : List Bytes).flatten ∧
     (forward_tcp (([[1, 2], [3]] : List Bytes).map (fun b => RelayEvent.got b true)
        ++ RelayEvent.got [7] false :: [RelayEvent.got [9] true])).flatten
      = ([[1, 2], [3]] : List Bytes).flatten ∧
     (∀ evs2 : List RelayEvent, (∀ e ∈ evs2, (eventChunk e).length ≤ 4096) →
        ∀ w ∈ forward_tcp evs2, w.length ≤ 4096)) :=
  ⟨by decide,
   forward_tcp_relays_in_order [[1, 2], [3]] [RelayEvent.got [9] true] [7] (by decide)⟩

/-- C1.  The relay (and hence any forwarding of application data) starts only
in sessions where every handshake step succeeded: the greeting offered method
2, `verify_credentials` returned `True`, and the sends so far are exactly the
method-selection reply, the success auth reply, and a ConnectReply whose
status byte is 0 — sent, in that order, before the relay tasks are spawned.
Contrapositively, a session that fails any handshake step never starts the
relay. -/
theorem handle_relay_gated_by_auth (cfgU cfgP : List Nat) (cr : Option (Nat × Nat))
    (input : Bytes) (h : (handle cfgU cfgP cr input).relayStarted = true) :
    (handle cfgU cfgP cr input).ending = SessionEnd.relayedClosed ∧
    ∃ ms r1 o, parseGreeting input = some (ms, r1) ∧ 2 ∈ ms ∧
      verify_credentials cfgU cfgP r1 = some o ∧ o.success = true ∧
      ∃ rep, (handle cfgU cfgP cr input).sent = [[5, 2], [1, 0], rep] ∧
        rep.getD 1 255 = 0 := by
  rcases handle_cases cfgU cfgP cr input with ⟨hf, _, _⟩ |
    ⟨ms, r1, o, atyp, ab, port, r2, ba, bp, hg, hm, hv, hs, hp, hcr, heq⟩
  · rw [hf] at h; exact Bool.noConfusion h
  · rw [heq]
    exact ⟨rfl, ms, r1, o, hg, hm, hv, hs, [5, 0, 0, atyp] ++ be32 ba ++ be16 bp,
      rfl, by simp [be32, be16]⟩

/-- Witness for C1: a complete successful session. -/
theorem handle_relay_gated_by_auth_witness :
    (handle [97] [98] (some (16909060, 80))
        [5, 1, 2, 1, 1, 97, 1, 98, 5, 1, 0, 1, 1, 2, 3, 4, 0, 80]).relayStarted = true ∧
    ((handle [97] [98] (some (16909060, 80))
        [5, 1, 2, 1, 1, 97, 1, 98, 5, 1, 0, 1, 1, 2, 3, 4, 0, 80]).ending
        = SessionEnd.relayedClosed ∧
     ∃ ms r1 o, parseGreeting [5, 1, 2, 1, 1, 97, 1, 98, 5, 1, 0, 1, 1, 2, 3, 4, 0, 80]
        = some (ms, r1) ∧ 2 ∈ ms ∧
       verify_credentials [97] [98] r1 = some o ∧ o.success = true ∧
       ∃ rep, (handle [97] [98] (some (16909060, 80))
          [5, 1, 2, 1, 1, 97, 1, 98, 5, 1, 0, 1, 1, 2, 3, 4, 0, 80]).sent
          = [[5, 2], [1, 0], rep] ∧ rep.getD 1 255 = 0) :=
  ⟨by decide, handle_relay_gated_by_auth [97] [98] (some (16909060, 80))
    [5, 1, 2, 1, 1, 97, 1, 98, 5, 1, 0, 1, 1, 2, 3, 4, 0, 80] (by decide)⟩

/-- C2.  Evaluating `handle` on a session whose outbound connect fails: the
failure reply (status 5) is sent and no relay direction is started, but the
handler then hits `await job1.join()` with `job1` never assigned (the joins
on lines 95–96 sit outside the `if reply[1] == 0 and cmd == 1` guard), so it
aborts with `UnboundLocalError` (`joinFault`) instead of proceeding to its
`await conn.close()`.  For a non-CONNECT command (second conjunct) the
handler does return directly with no relay and no reply, as claimed. -/
theorem handle_failure_reply_join_fault :
    handle [97] [98] none [5, 1, 2, 1, 1, 97, 1, 98, 5, 1, 0, 1, 1, 2, 3, 4, 0, 80]
      = ⟨[[5, 2], [1, 0], [5, 5, 0, 1, 0, 0, 0, 0, 0, 0]], false, false, false,
         SessionEnd.joinFault⟩ ∧
    handle [97] [98] none [5, 1, 2, 1, 1, 97, 1, 98, 5, 3, 0, 1, 1, 2, 3, 4, 0, 80]
      = ⟨[[5, 2], [1, 0]], false, false, false, SessionEnd.cmdNotConnect⟩ := by
  decide

/-- C3 (amended).  A session that reaches `Relaying` ends with the handler
closing the client stream (`await conn.close()`), but the outbound stream
`remote` is never closed by the handler — no `remote.close()` exists in
`SocksProxy.handle`. -/
theorem handle_relayed_closes_client_only (cfgU cfgP : List Nat)
    (cr : Option (Nat × Nat)) (input : Bytes)
    (h : (handle cfgU cfgP cr input).ending = SessionEnd.relayedClosed) :
    (handle cfgU cfgP cr input).connClosed = true ∧
    (handle cfgU cfgP cr input).remoteClosed = false := by
  rcases handle_cases cfgU cfgP cr input with ⟨_, hne, _⟩ |
    ⟨ms, r1, o, atyp, ab, port, r2, ba, bp, hg, hm, hv, hs, hp, hcr, heq⟩
  · exact absurd h hne
  · rw [heq]; exact ⟨rfl, rfl⟩

/-- Witness for the amended C3: a concrete fully-relayed session. -/
theorem handle_relayed_closes_client_only_witness :
    (handle [97] [98] (some (258, 443))
        [5, 1, 2, 1, 1, 97, 1, 98, 5, 1, 0, 1, 9, 9, 9, 9, 1, 187]).ending
      = SessionEnd.relayedClosed ∧
    ((handle [97] [98] (some (258, 443))
        [5, 1, 2, 1, 1, 97, 1, 98, 5, 1, 0, 1, 9, 9, 9, 9, 1, 187]).connClosed = true ∧
     (handle [97] [98] (some (258, 443))
        [5, 1, 2, 1, 1, 97, 1, 98, 5, 1, 0, 1, 9, 9, 9, 9, 1, 187]).remoteClosed = false) :=
  ⟨by decide, handle_relayed_closes_client_only [97] [98] (some (258, 443))
    [5, 1, 2, 1, 1, 97, 1, 98, 5, 1, 0, 1, 9, 9, 9, 9, 1, 187] (by decide)⟩

/-- Counterexample to C3 as stated: a session that reached `Relaying` and
finished, yet whose outbound stream the handler never closed. -/
theorem handle_remote_not_closed_counterexample :
    (handle [97] [98] (some (16909060, 80))
        [5, 1, 2, 1, 1, 97, 1, 98, 5, 1, 0, 1, 1, 2, 3, 4, 0, 80]).ending
      = SessionEnd.relayedClosed ∧
    (handle [97] [98] (some (16909060, 80))
        [5, 1, 2, 1, 1, 97, 1, 98, 5, 1, 0, 1, 1, 2, 3, 4, 0, 80]).remoteClosed = false := by
  decide

/-- C4.  For every connect request with address type 3 (domain name), the
code does not read a length byte at all: `ord(await conn.recv(1)[0])`
subscripts the coroutine object before awaiting it and raises `TypeError`,
so parsing faults for every such request (first conjunct), and a session
reaching that point aborts with no ConnectReply sent (second conjunct: the
request carries a well-formed 7-byte domain `example` and port 80, yet the
session ends in `protocolFault` having sent only the method-selection and
auth replies). -/
theorem domain_request_type_error :
    (∀ cmd rsv rest, parseConnectRequest (5 :: cmd :: rsv :: 3 :: rest) = ConnReq.fault) ∧
    handle [97] [98] (some (16909060, 80))
        [5, 1, 2, 1, 1, 97, 1, 98, 5, 1, 0, 3, 7, 101, 120, 97, 109, 112, 108, 101, 0, 80]
      = ⟨[[5, 2], [1, 0]], false, false, false, SessionEnd.protocolFault⟩ := by
  constructor
  · intro cmd rsv rest
    simp [parseConnectRequest]
  · decide

/-- Counterexample to C5 as stated: a CONNECT request with address type 4
decodes without any fault (no `ProtocolError` aborts the session), and the
handler proceeds into the connect phase with no address assigned, sends a
status-5 reply, and only then aborts at the relay join. -/
theorem unsupported_atyp_counterexample :
    parseConnectRequest [5, 1, 0, 4, 0, 80] = ConnReq.req 1 4 none 80 [] ∧
    handle [97] [98] none [5, 1, 2, 1, 1, 97, 1, 98, 5, 1, 0, 4, 0, 80]
      = ⟨[[5, 2], [1, 0], [5, 5, 0, 4, 0, 0, 0, 0, 0, 0]], false, false, false,
         SessionEnd.joinFault⟩ := by
  decide

/-- C5 (amended).  For an address type that is neither 1 nor 3, decoding does
not fail: no branch assigns `address`, the port is read, and for the CONNECT
command the `NameError` raised when evaluating `(address, port)` is caught by
the same `except Exception`, so a failure reply with status 5 echoing the
address type is sent; no relay starts, and the session then aborts at the
unguarded `await job1.join()`. -/
theorem unsupported_atyp_proceeds (cmd rsv atyp p0 p1 : Nat) (rest : Bytes)
    (cr : Option (Nat × Nat)) (h1 : atyp ≠ 1) (h3 : atyp ≠ 3) :
    parseConnectRequest (5 :: cmd :: rsv :: atyp :: p0 :: p1 :: rest)
      = ConnReq.req cmd atyp none (256 * p0 + p1) rest ∧
    (cmd = 1 →
      connectAndRelayPhase cr (5 :: cmd :: rsv :: atyp :: p0 :: p1 :: rest)
        = ⟨[generate_failed_reply atyp 5], false, false, false, SessionEnd.joinFault⟩) := by
  have hp : parseConnectRequest (5 :: cmd :: rsv :: atyp :: p0 :: p1 :: rest)
      = ConnReq.req cmd atyp none (256 * p0 + p1) rest := by
    simp [parseConnectRequest, h1, h3]
  refine ⟨hp, fun hc => ?_⟩
  subst hc
  cases cr <;> simp [connectAndRelayPhase, hp, generate_failed_reply, be32, be16]

/-- Witness for the amended C5 at address type 4. -/
theorem unsupported_atyp_proceeds_witness :
    ((4 : Nat) ≠ 1 ∧ (4 : Nat) ≠ 3) ∧
    (parseConnectRequest [5, 1, 0, 4, 9, 9] = ConnReq.req 1 4 none (256 * 9 + 9) [] ∧
     (1 = 1 →
       connectAndRelayPhase none [5, 1, 0, 4, 9, 9]
         = ⟨[generate_failed_reply 4 5], false, false, false, SessionEnd.joinFault⟩)) :=
  ⟨⟨by decide, by decide⟩,
   unsupported_atyp_proceeds 1 0 4 9 9 [] none (by decide) (by decide)⟩

/-- C7.  For every session whose handshake succeeded up to a CONNECT request
with a defined address, if the outbound connection attempt fails
(`cr = none`), the reply sent to the client is exactly
`generate_failed_reply(address_type, 5)`: the fixed 10-byte layout with
status byte 5, the address-type byte of the request echoed, and the 4-byte
address and 2-byte port fields all zero. -/
theorem failed_connect_reply_shape (cfgU cfgP : List Nat) (input ms r1 ab r2 : Bytes)
    (o : AuthOutcome) (atyp port : Nat)
    (hg : parseGreeting input = some (ms, r1)) (hm : 2 ∈ ms)
    (hv : verify_credentials cfgU cfgP r1 = some o) (hs : o.success = true)
    (hp : parseConnectRequest o.rest = ConnReq.req 1 atyp (some ab) port r2) :
    handle cfgU cfgP none input
      = ⟨[[5, 2], [1, 0], generate_failed_reply atyp 5], false, false, false,
         SessionEnd.joinFault⟩ ∧
    generate_failed_reply atyp 5 = [5, 5, 0, atyp, 0, 0, 0, 0, 0, 0] ∧
    (generate_failed_reply atyp 5).length = 10 := by
  have hrep : o.replied = [1, 0] := ((verify_credentials_replied hv).1 hs).1
  refine ⟨?_, by simp [generate_failed_reply, be32, be16],
    by simp [generate_failed_reply, be32, be16]⟩
  simp [handle, hg, hm, authPhase, hv, hs, withSends, connectAndRelayPhase, hp, hrep,
        generate_failed_reply, be32, be16]

/-- Witness for C7: credentials accepted, CONNECT to 8.8.4.4:257, outbound
connect fails. -/
theorem failed_connect_reply_shape_witness :
    (parseGreeting [5, 1, 2, 1, 1, 97, 1, 98, 5, 1, 0, 1, 8, 8, 4, 4, 1, 1]
       = some ([2], [1, 1, 97, 1, 98, 5, 1, 0, 1, 8, 8, 4, 4, 1, 1]) ∧
     2 ∈ ([2] : Bytes) ∧
     verify_credentials [97] [98] [1, 1, 97, 1, 98, 5, 1, 0, 1, 8, 8, 4, 4, 1, 1]
       = some ⟨[1, 0], true, false, [5, 1, 0, 1, 8, 8, 4, 4, 1, 1]⟩ ∧
     parseConnectRequest [5, 1, 0, 1, 8, 8, 4, 4, 1, 1]
       = ConnReq.req 1 1 (some [8, 8, 4, 4]) 257 []) ∧
    (handle [97] [98] none [5, 1, 2, 1, 1, 97, 1, 98, 5, 1, 0, 1, 8, 8, 4, 4, 1, 1]
       = ⟨[[5, 2], [1, 0], generate_failed_reply 1 5], false, false, false,
          SessionEnd.joinFault⟩ ∧
     generate_failed_reply 1 5 = [5, 5, 0, 1, 0, 0, 0, 0, 0, 0] ∧
     (generate_failed_reply 1 5).length = 10) :=
  ⟨⟨by decide, by decide, by decide, by decide⟩,
   failed_connect_reply_shape [97] [98]
     [5, 1, 2, 1, 1, 97, 1, 98, 5, 1, 0, 1, 8, 8, 4, 4, 1, 1] [2]
     [1, 1, 97, 1, 98, 5, 1, 0, 1, 8, 8, 4, 4, 1, 1] [8, 8, 4, 4] []
     ⟨[1, 0], true, false, [5, 1, 0, 1, 8, 8, 4, 4, 1, 1]⟩ 1 257
     (by decide) (by decide) (by decide) (by decide) (by decide)⟩

/-- C8.  For every valid greeting: the server's first send is the 2-byte
method-selection reply `05 02` if and only if method 2 is among the offered
methods; when method 2 is not offered the handler sends nothing at all and
returns (the connection is then closed with no reply). -/
theorem method_selection_iff (cfgU cfgP : List Nat) (cr : Option (Nat × Nat))
    (input ms r1 : Bytes) (hg : parseGreeting input = some (ms, r1)) :
    (2 ∈ ms ↔ (handle cfgU cfgP cr input).sent.head? = some [5, 2]) ∧
    (2 ∉ ms → handle cfgU cfgP cr input
        = ⟨[], false, false, false, SessionEnd.noAcceptableMethod⟩) := by
  by_cases hm : 2 ∈ ms
  · refine ⟨⟨fun _ => ?_, fun _ => hm⟩, fun hn => absurd hm hn⟩
    simp [handle, hg, hm, withSends]
  · have hh : handle cfgU cfgP cr input
        = ⟨[], false, false, false, SessionEnd.noAcceptableMethod⟩ := by
      simp [handle, hg, hm]
    refine ⟨⟨fun h => absurd h hm, fun h => ?_⟩, fun _ => hh⟩
    rw [hh] at h
    exact Option.noConfusion h

/-- Witness for C8: a greeting offering methods 2 and 5. -/
theorem method_selection_iff_witness :
    (2 ∈ ([2, 5] : Bytes) ↔
      (handle [97] [98] none [5, 2, 2, 5, 9]).sent.head? = some [5, 2]) ∧
    (2 ∉ ([2, 5] : Bytes) → handle [97] [98] none [5, 2, 2, 5, 9]
        = ⟨[], false, false, false, SessionEnd.noAcceptableMethod⟩) :=
  method_selection_iff [97] [98] none [5, 2, 2, 5, 9] [2, 5] [9] (by decide)

/-- C9.  For every well-formed auth request (version byte 1, length-prefixed
username and password that decode as UTF-8): if the decoded pair equals the
configured pair exactly, the server sends `01 00` and continues into the
connect-request phase on the remaining client bytes; otherwise it sends
`01 FF`, closes the connection inside `verify_credentials`, and the session
ends in `authRejected` with nothing further read or sent — so no second auth
attempt is possible. -/
theorem auth_exact_match (cfgU cfgP : List Nat) (cr : Option (Nat × Nat))
    (input ms r1 u p rest : Bytes) (du dp : List Nat)
    (hg : parseGreeting input = some (ms, r1)) (hm : 2 ∈ ms)
    (hr : r1 = 1 :: u.length :: (u ++ p.length :: (p ++ rest)))
    (hu : utf8Decode? u = some du) (hp2 : utf8Decode? p = some dp) :
    (du = cfgU ∧ dp = cfgP →
       handle cfgU cfgP cr input
         = withSends [[5, 2], [1, 0]] (connectAndRelayPhase cr rest)) ∧
    (¬(du = cfgU ∧ dp = cfgP) →
       handle cfgU cfgP cr input
         = ⟨[[5, 2], [1, 255]], false, true, false, SessionEnd.authRejected⟩) := by
  have hv : verify_credentials cfgU cfgP r1
      = some (authReplyFor cfgU cfgP du dp rest) := by
    subst hr
    simp [verify_credentials, List.take_left, List.drop_left, hu, hp2]
  constructor
  · intro hok
    simp [handle, hg, hm, authPhase, hv, authReplyFor, hok, withSends]
  · intro hbad
    simp [handle, hg, hm, authPhase, hv, authReplyFor, hbad, withSends]

/-- Witness for C9: correct credentials `a`/`b` followed by an empty
remainder. -/
theorem auth_exact_match_witness :
    (([97] : List Nat) = [97] ∧ ([98] : List Nat) = [98] →
       handle [97] [98] none [5, 1, 2, 1, 1, 97, 1, 98]
         = withSends [[5, 2], [1, 0]] (connectAndRelayPhase none [])) ∧
    (¬(([97] : List Nat) = [97] ∧ ([98] : List Nat) = [98]) →
       handle [97] [98] none [5, 1, 2, 1, 1, 97, 1, 98]
         = ⟨[[5, 2], [1, 255]], false, true, false, SessionEnd.authRejected⟩) :=
  auth_exact_match [97] [98] none [5, 1, 2, 1, 1, 97, 1, 98] [2] [1, 1, 97, 1, 98]
    [97] [98] [] [97] [98] (by decide) (by decide) (by decide) (by decide) (by decide)

/-- C10.  An auth request whose username or password bytes are not valid
UTF-8 makes `verify_credentials` raise an unhandled `UnicodeDecodeError`
before any auth reply is sent: the session ends in `protocolFault` with the
method-selection reply as the only bytes ever sent (first conjunct); the
second and third conjuncts show the decode fault itself, for an invalid
username and for an invalid password respectively. -/
theorem auth_decode_fault_no_reply (cfgU cfgP : List Nat) :
    (∀ (cr : Option (Nat × Nat)) (input ms r1 : Bytes),
       parseGreeting input = some (ms, r1) → 2 ∈ ms →
       verify_credentials cfgU cfgP r1 = none →
       handle cfgU cfgP cr input
         = ⟨[[5, 2]], false, false, false, SessionEnd.protocolFault⟩) ∧
    (∀ (n : Nat) (rest : Bytes), utf8Decode? (rest.take n) = none →
       verify_credentials cfgU cfgP (1 :: n :: rest) = none) ∧
    (∀ (u : Bytes) (du : List Nat) (m : Nat) (rest : Bytes),
       utf8Decode? u = some du → utf8Decode? (rest.take m) = none →
       verify_credentials cfgU cfgP (1 :: u.length :: (u ++ m :: rest)) = none) := by
  refine ⟨fun cr input ms r1 hg hm hv => ?_, fun n rest h => ?_,
    fun u du m rest hu h => ?_⟩
  · simp [handle, hg, hm, authPhase, hv, withSends]
  · simp [verify_credentials, h]
  · simp [verify_credentials, List.take_left, List.drop_left, hu, h]

/-- Witness for C10: the single byte `0xFF` as username. -/
theorem auth_decode_fault_no_reply_witness :
    verify_credentials [97] [98] [1, 1, 255, 1, 98] = none ∧
    handle [97] [98] none [5, 1, 2, 1, 1, 255, 1, 98]
      = ⟨[[5, 2]], false, false, false, SessionEnd.protocolFault⟩ :=
  ⟨(auth_decode_fault_no_reply [97] [98]).2.1 1 [255, 1, 98] (by decide),
   (auth_decode_fault_no_reply [97] [98]).1 none [5, 1, 2, 1, 1, 255, 1, 98] [2]
     [1, 1, 255, 1, 98] (by decide) (by decide) (by decide)⟩
